import Mathlib

/-!
Shallow embedding of `nova_powervm/virt/powervm/tasks/network.py`: the
`UnplugVifs`, `PlugVifs` and `PlugMgmtVif` taskflow tasks.

External collaborators (the `vm` helper module, the nova virt API event
waiter, oslo configuration and logging) are modelled as explicit inputs:

* `nm` stands for `vm.norm_mac` (an arbitrary normalization function);
* the `lpar_wrap.can_modify_io()` snapshot is a record with the boolean and
  the reason string;
* the CNA list returned by `vm.get_cnas` is an input (`cnas`);
* whether an individual `cna_w.delete()` REST call succeeds is an oracle
  `delOk` keyed by the adapter's MAC;
* whether the scoped `wait_for_instance_event` wait times out at scope exit
  is the boolean input `timeoutOccurs` (per nova's virt API the deadline is
  armed only over the wait for registered events at scope exit, so with an
  empty event list no timeout can arise, and all creations inside the body
  complete before the wait);
* deletions, creations, the event registration and the log lines the design
  cares about are recorded in an effect trace returned next to the result.
-/

namespace NovaPowerVM

/-- A nova `network_info` VIF dict: hardware `address`, `id`, and the
optional `active` flag (`vif.get('active', True)` defaults to true when the
key is absent, modelled by `Option Bool`). -/
structure VifDict where
  address : String
  id : String
  active : Option Bool
deriving DecidableEq

/-- A pypowervm Client Network Adapter wrapper: its MAC address and the URI
of the virtual switch it is bound to. -/
structure CnaWrapper where
  mac : String
  vswitch_uri : String
deriving DecidableEq

/-- The `lpar_wrap.can_modify_io()` snapshot: the modifiable boolean and the
human-readable reason reported when false. -/
structure LparWrap where
  modifiable : Bool
  reason : String
deriving DecidableEq

/-- A virtual switch wrapper, as returned by `vm.get_secure_rmc_vswitch`;
only its `href` participates in the duplicate check. -/
structure VSwitch where
  href : String
deriving DecidableEq

/-- The configuration the tasks read: `utils.is_neutron()`,
`CONF.vif_plugging_is_fatal` and `CONF.vif_plugging_timeout` (an integer
whose Python truthiness is "nonzero"). -/
structure Config where
  is_neutron : Bool
  vif_plugging_is_fatal : Bool
  vif_plugging_timeout : Nat
deriving DecidableEq

/-- The typed failures the tasks raise.  `VirtualInterfaceUnplugException`
is a NovaException with the fixed format string
"Virtual interface unplug failed"; the kwargs list models the keyword
arguments passed at the raise site (both raise sites pass none).
`exception.VirtualInterfaceCreateException` comes from base nova. -/
inductive NetworkError where
  | virtualInterfaceUnplugException (kwargs : List (String × String))
  | virtualInterfaceCreateException
deriving DecidableEq

/-- A side effect of a task run, in program order: REST calls that mutate or
read hypervisor state, the event-wait registration, and the log lines the
design treats as observable. -/
inductive Effect where
  | checkModifiable
  | logErrorNotModifiable (reason : String)
  | fetchCnas
  | logWarnNotFound (mac : String)
  | deleteCna (mac : String)
  | registerEvents (events : List (String × String))
  | createVif (mac : String)
  | createMgmtVif
deriving DecidableEq

/-- The adapter-matching scan both tasks use: walk the CNA list and return
the first wrapper with `vm.norm_mac(cna_w.mac) == vif['address']`. -/
def findMatch (nm : String → String) (vif : VifDict) : List CnaWrapper → Option CnaWrapper
  | [] => none
  | c :: rest => if nm c.mac == vif.address then some c else findMatch nm vif rest

/-- The `crt_vifs` computation of `PlugVifs.execute`: keep, in order, every
VIF of `network_info` whose inner scan over `cna_w_list` finds no MAC match
(the Python for/else appends on the `else`, i.e. when no `break` fired). -/
def computeCrtVifs (nm : String → String) : List VifDict → List CnaWrapper → List VifDict
  | [], _ => []
  | vif :: rest, cnas =>
    match findMatch nm vif cnas with
    | some _ => computeCrtVifs nm rest cnas
    | none => vif :: computeCrtVifs nm rest cnas

/-- `PlugVifs._get_vif_events`: when neutron is in use, plugging is fatal and
the timeout is truthy (nonzero), one `('network-vif-plugged', vif['id'])`
entry per VIF of `self.network_info` with `vif.get('active', True)` false;
otherwise the empty list. -/
def getVifEvents (cfg : Config) (network_info : List VifDict) : List (String × String) :=
  if cfg.is_neutron && cfg.vif_plugging_is_fatal && decide (cfg.vif_plugging_timeout ≠ 0) then
    (network_info.filter (fun vif => !(vif.active.getD true))).map
      (fun vif => ("network-vif-plugged", vif.id))
  else []

/-- The VIF walk of `UnplugVifs.execute`: for each VIF, delete the first
MAC-matching CNA (failure raises `VirtualInterfaceUnplugException` and stops
the walk), or log a warning when no CNA matches.  Returns the effect list
and the error, if any.  The CNA list is not altered between iterations,
exactly as in the Python loop. -/
def unplugLoop (nm : String → String) (delOk : String → Bool) :
    List VifDict → List CnaWrapper → List Effect × Option NetworkError
  | [], _ => ([], none)
  | vif :: rest, cnas =>
    match findMatch nm vif cnas with
    | some c =>
      if delOk c.mac then
        let r := unplugLoop nm delOk rest cnas
        (Effect.deleteCna c.mac :: r.1, r.2)
      else
        ([Effect.deleteCna c.mac], some (NetworkError.virtualInterfaceUnplugException []))
    | none =>
      let r := unplugLoop nm delOk rest cnas
      (Effect.logWarnNotFound vif.address :: r.1, r.2)

/-- `UnplugVifs.execute`: check `can_modify_io` first (raising a bare
`VirtualInterfaceUnplugException()` if not modifiable, before any CNA
fetch), then fetch the CNA list, walk the VIFs deleting matches, and return
the list captured at the fetch. -/
def unplugVifsExecute (nm : String → String) (delOk : String → Bool)
    (lpar_wrap : LparWrap) (network_info : List VifDict) (cnas : List CnaWrapper) :
    List Effect × Except NetworkError (List CnaWrapper) :=
  if !lpar_wrap.modifiable then
    ([Effect.checkModifiable, Effect.logErrorNotModifiable lpar_wrap.reason],
     Except.error (NetworkError.virtualInterfaceUnplugException []))
  else
    let r := unplugLoop nm delOk network_info cnas
    match r.2 with
    | some e => ([Effect.checkModifiable, Effect.fetchCnas] ++ r.1, Except.error e)
    | none => ([Effect.checkModifiable, Effect.fetchCnas] ++ r.1, Except.ok cnas)

/-- `PlugVifs.execute`: fetch the CNA list, compute `crt_vifs`; if empty,
return `[]` at once; otherwise check `can_modify_io` (raising
`VirtualInterfaceCreateException` if not modifiable), register the event
wait set from `_get_vif_events`, create every `crt_vifs` entry inside the
scope, and at scope exit either time out (raising
`VirtualInterfaceCreateException`, the creations already issued staying in
the trace) or return the CNA list captured before creation. -/
def plugVifsExecute (nm : String → String) (cfg : Config) (lpar_wrap : LparWrap)
    (network_info : List VifDict) (cnas : List CnaWrapper) (timeoutOccurs : Bool) :
    List Effect × Except NetworkError (List CnaWrapper) :=
  let crt_vifs := computeCrtVifs nm network_info cnas
  if crt_vifs.length == 0 then
    ([Effect.fetchCnas], Except.ok [])
  else if !lpar_wrap.modifiable then
    ([Effect.fetchCnas, Effect.checkModifiable,
      Effect.logErrorNotModifiable lpar_wrap.reason],
     Except.error NetworkError.virtualInterfaceCreateException)
  else
    let events := getVifEvents cfg network_info
    let effs := [Effect.fetchCnas, Effect.checkModifiable, Effect.registerEvents events]
      ++ crt_vifs.map (fun vif => Effect.createVif vif.address)
    (effs,
     if !events.isEmpty && timeoutOccurs then
       Except.error NetworkError.virtualInterfaceCreateException
     else
       Except.ok cnas)

/-- `PlugMgmtVif.execute`: no management virtual switch on the host, or some
supplied CNA already bound to it (`cna_w.vswitch_uri == vswitch_w.href`),
means return `None` with no creation; otherwise create and return the
secure RMC VIF (`created` stands for the wrapper `vm.crt_secure_rmc_vif`
returns). -/
def plugMgmtVifExecute (vswitch_w : Option VSwitch) (vm_cnas : List CnaWrapper)
    (created : CnaWrapper) : List Effect × Option CnaWrapper :=
  match vswitch_w with
  | none => ([], none)
  | some sw =>
    if vm_cnas.any (fun cna_w => cna_w.vswitch_uri == sw.href) then
      ([], none)
    else
      ([Effect.createMgmtVif], some created)

/-- Whether an effect is a data-plane adapter creation (`vm.crt_vif`). -/
def isCreate : Effect → Bool
  | Effect.createVif _ => true
  | _ => false

/-- Whether an effect is an adapter deletion (`cna_w.delete()`). -/
def isDelete : Effect → Bool
  | Effect.deleteCna _ => true
  | _ => false

/-- The keyword arguments carried by a raised
`VirtualInterfaceUnplugException`, when the result is that failure. -/
def raisedKwargs : Except NetworkError (List CnaWrapper) → List (String × String)
  | Except.error (NetworkError.virtualInterfaceUnplugException kw) => kw
  | _ => []

deriving instance DecidableEq for Except

/-! ## Helper lemmas -/

/-- The matching scan finds nothing exactly when every adapter in the list
fails the normalized-MAC comparison against the VIF's address. -/
theorem findMatch_isNone_eq_all (nm : String → String) (vif : VifDict) :
    ∀ cnas : List CnaWrapper,
      (findMatch nm vif cnas).isNone = cnas.all (fun c => !(nm c.mac == vif.address))
  | [] => rfl
  | c :: rest => by
    simp only [findMatch, List.all_cons]
    cases h : (nm c.mac == vif.address) with
    | false => simp [findMatch_isNone_eq_all nm vif rest]
    | true => simp

/-- Propositional form of `findMatch_isNone_eq_all`. -/
theorem findMatch_eq_none_iff (nm : String → String) (vif : VifDict)
    (cnas : List CnaWrapper) :
    findMatch nm vif cnas = none ↔ ∀ c ∈ cnas, nm c.mac ≠ vif.address := by
  rw [← Option.isNone_iff_eq_none, findMatch_isNone_eq_all]
  simp

/-- `crt_vifs` is a filter of `network_info` by the no-match predicate. -/
theorem computeCrtVifs_eq_filter (nm : String → String) (cnas : List CnaWrapper) :
    ∀ ni : List VifDict,
      computeCrtVifs nm ni cnas = ni.filter (fun vif => (findMatch nm vif cnas).isNone)
  | [] => rfl
  | vif :: rest => by
    simp only [computeCrtVifs, List.filter_cons]
    cases h : findMatch nm vif cnas with
    | none => simp [computeCrtVifs_eq_filter nm cnas rest]
    | some c => simp [computeCrtVifs_eq_filter nm cnas rest]

/-! ## Claim theorems -/

/-- C2: for every desired list and live adapter list, `crt_vifs` is exactly
the sublist (in order) of the desired interfaces with no live adapter whose
normalized MAC equals their address, and no `crt_vifs` element has a match
among the live adapters. -/
theorem plug_crt_vifs_matches_spec (nm : String → String) (ni : List VifDict)
    (cnas : List CnaWrapper) :
    computeCrtVifs nm ni cnas
      = ni.filter (fun vif => cnas.all (fun c => !(nm c.mac == vif.address)))
    ∧ ∀ vif ∈ computeCrtVifs nm ni cnas, ∀ c ∈ cnas, nm c.mac ≠ vif.address := by
  have hfil : computeCrtVifs nm ni cnas
      = ni.filter (fun vif => cnas.all (fun c => !(nm c.mac == vif.address))) := by
    rw [computeCrtVifs_eq_filter]
    exact List.filter_congr (fun vif _ => findMatch_isNone_eq_all nm vif cnas)
  refine ⟨hfil, ?_⟩
  intro vif hv c hc
  rw [hfil] at hv
  have hall := (List.mem_filter.mp hv).2
  have h2 := List.all_eq_true.mp hall c hc
  simpa using h2

/-- Witness for `plug_crt_vifs_matches_spec` at a concrete input. -/
theorem plug_crt_vifs_matches_spec_witness :
    computeCrtVifs (fun s => s)
        [⟨"aa", "1", some false⟩, ⟨"cc", "2", some true⟩] [⟨"aa", "sw"⟩]
      = List.filter
          (fun vif : VifDict => List.all ([⟨"aa", "sw"⟩] : List CnaWrapper)
            (fun c => !((fun s : String => s) c.mac == vif.address)))
          [⟨"aa", "1", some false⟩, ⟨"cc", "2", some true⟩]
    ∧ (fun s : String => s) ("aa") ≠ "cc" :=
  ⟨(plug_crt_vifs_matches_spec (fun s => s)
      [⟨"aa", "1", some false⟩, ⟨"cc", "2", some true⟩] [⟨"aa", "sw"⟩]).1,
   (plug_crt_vifs_matches_spec (fun s => s)
      [⟨"aa", "1", some false⟩, ⟨"cc", "2", some true⟩] [⟨"aa", "sw"⟩]).2
     ⟨"cc", "2", some true⟩ (by decide) ⟨"aa", "sw"⟩ (by decide)⟩

/-- C1 counterexample: with two desired interfaces both marked inactive, the
first already matched by a live adapter (so `toCreate` holds only the
second), the plug operation still registers a wait entry for the first
interface's id — an interface outside `toCreate`. -/
theorem plug_event_wait_counterexample :
    computeCrtVifs (fun s => s)
        [⟨"aa", "1", some false⟩, ⟨"cc", "2", some false⟩] [⟨"aa", "swA"⟩]
      = [⟨"cc", "2", some false⟩]
    ∧ Effect.registerEvents
          [("network-vif-plugged", "1"), ("network-vif-plugged", "2")]
        ∈ (plugVifsExecute (fun s => s) ⟨true, true, 300⟩ ⟨true, "r"⟩
            [⟨"aa", "1", some false⟩, ⟨"cc", "2", some false⟩]
            [⟨"aa", "swA"⟩] false).1
    ∧ (⟨"aa", "1", some false⟩ : VifDict)
        ∉ computeCrtVifs (fun s => s)
            [⟨"aa", "1", some false⟩, ⟨"cc", "2", some false⟩] [⟨"aa", "swA"⟩] := by
  decide

/-- C1 (amended): the event-wait set is built from the full desired
interface list (`network_info`), not from `toCreate`: when neutron is in
use, the fatal policy is on and the timeout is nonzero, the plug operation
registers exactly one ('network-vif-plugged', id) entry per desired
interface whose active flag is false, whether or not that interface is in
`toCreate`. -/
theorem plug_event_wait_set (nm : String → String) (cfg : Config)
    (lpar_wrap : LparWrap) (ni : List VifDict) (cnas : List CnaWrapper) (tmo : Bool)
    (hmod : lpar_wrap.modifiable = true)
    (hne : computeCrtVifs nm ni cnas ≠ [])
    (hn : cfg.is_neutron = true) (hf : cfg.vif_plugging_is_fatal = true)
    (ht : cfg.vif_plugging_timeout ≠ 0) :
    Effect.registerEvents
        ((ni.filter (fun v => !(v.active.getD true))).map
          (fun v => ("network-vif-plugged", v.id)))
      ∈ (plugVifsExecute nm cfg lpar_wrap ni cnas tmo).1 := by
  obtain ⟨v, rest, hv⟩ : ∃ v rest, computeCrtVifs nm ni cnas = v :: rest := by
    cases h : computeCrtVifs nm ni cnas with
    | nil => exact absurd h hne
    | cons a l => exact ⟨a, l, rfl⟩
  simp only [plugVifsExecute, hv, hmod, getVifEvents, hn, hf, ht]
  simp [if_neg ht]

/-- Witness for `plug_event_wait_set` at a concrete input. -/
theorem plug_event_wait_set_witness :
    Effect.registerEvents
        ((List.filter (fun v => !(v.active.getD true))
            [(⟨"aa", "1", some false⟩ : VifDict)]).map
          (fun v => ("network-vif-plugged", v.id)))
      ∈ (plugVifsExecute (fun s => s) ⟨true, true, 300⟩ ⟨true, "r"⟩
          [⟨"aa", "1", some false⟩] [] false).1 :=
  plug_event_wait_set (fun s => s) ⟨true, true, 300⟩ ⟨true, "r"⟩
    [⟨"aa", "1", some false⟩] [] false rfl (by decide) rfl rfl (by decide)

/-- C3: the plug operation short-circuits with `([], no further effects)`
when `crt_vifs` is empty — the trace is just the CNA fetch, so there is no
modifiability check, no event registration and no creation — and whenever
`crt_vifs` is non-empty every successful return hands back the adapter list
captured before creation; in particular the modifiable, no-timeout run
returns exactly that list. -/
theorem plug_return_semantics (nm : String → String) (cfg : Config)
    (lpar_wrap : LparWrap) (ni : List VifDict) (cnas : List CnaWrapper) (tmo : Bool) :
    (computeCrtVifs nm ni cnas = [] →
      plugVifsExecute nm cfg lpar_wrap ni cnas tmo = ([Effect.fetchCnas], Except.ok []))
    ∧ (computeCrtVifs nm ni cnas ≠ [] →
      ∀ l, (plugVifsExecute nm cfg lpar_wrap ni cnas tmo).2 = Except.ok l → l = cnas)
    ∧ (computeCrtVifs nm ni cnas ≠ [] → lpar_wrap.modifiable = true → tmo = false →
      (plugVifsExecute nm cfg lpar_wrap ni cnas tmo).2 = Except.ok cnas) := by
  refine ⟨?_, ?_, ?_⟩
  · intro h
    simp [plugVifsExecute, h]
  · intro hne l hok
    obtain ⟨v, rest, hv⟩ : ∃ v rest, computeCrtVifs nm ni cnas = v :: rest := by
      cases h : computeCrtVifs nm ni cnas with
      | nil => exact absurd h hne
      | cons a l2 => exact ⟨a, l2, rfl⟩
    simp only [plugVifsExecute, hv] at hok
    cases hm : lpar_wrap.modifiable with
    | false => simp [hm] at hok
    | true =>
      simp only [hm] at hok
      by_cases hto : (!(getVifEvents cfg ni).isEmpty && tmo) = true
      · simp [hto] at hok
      · simp only [Bool.not_eq_true] at hto
        simp [hto] at hok
        exact hok.symm
  · intro hne hm hto
    obtain ⟨v, rest, hv⟩ : ∃ v rest, computeCrtVifs nm ni cnas = v :: rest := by
      cases h : computeCrtVifs nm ni cnas with
      | nil => exact absurd h hne
      | cons a l2 => exact ⟨a, l2, rfl⟩
    simp [plugVifsExecute, hv, hm, hto]

/-- Witness for `plug_return_semantics` at concrete inputs. -/
theorem plug_return_semantics_witness :
    plugVifsExecute (fun s => s) ⟨true, true, 300⟩ ⟨false, "r"⟩
        [⟨"aa", "1", none⟩] [⟨"aa", "sw"⟩] false
      = ([Effect.fetchCnas], Except.ok [])
    ∧ (plugVifsExecute (fun s => s) ⟨true, true, 300⟩ ⟨true, "r"⟩
        [⟨"cc", "2", none⟩] [⟨"aa", "sw"⟩] false).2
      = Except.ok [⟨"aa", "sw"⟩] :=
  ⟨(plug_return_semantics (fun s => s) ⟨true, true, 300⟩ ⟨false, "r"⟩
      [⟨"aa", "1", none⟩] [⟨"aa", "sw"⟩] false).1 (by decide),
   (plug_return_semantics (fun s => s) ⟨true, true, 300⟩ ⟨true, "r"⟩
      [⟨"cc", "2", none⟩] [⟨"aa", "sw"⟩] false).2.2 (by decide) rfl rfl⟩

/-- C4: with `can_modify_io` reporting not-modifiable, the unplug operation
and (when `crt_vifs` is non-empty) the plug operation raise their typed
exceptions with a trace containing zero `vm.crt_vif` creations and zero
`cna_w.delete()` deletions. -/
theorem not_modifiable_no_mutation (nm : String → String) (delOk : String → Bool)
    (cfg : Config) (lpar_wrap : LparWrap) (niU niP : List VifDict)
    (cnasU cnasP : List CnaWrapper) (tmo : Bool)
    (h : lpar_wrap.modifiable = false) :
    ((unplugVifsExecute nm delOk lpar_wrap niU cnasU).1.filter
        (fun e => isCreate e || isDelete e) = []
      ∧ (unplugVifsExecute nm delOk lpar_wrap niU cnasU).2
          = Except.error (NetworkError.virtualInterfaceUnplugException []))
    ∧ (computeCrtVifs nm niP cnasP ≠ [] →
        (plugVifsExecute nm cfg lpar_wrap niP cnasP tmo).1.filter
            (fun e => isCreate e || isDelete e) = []
        ∧ (plugVifsExecute nm cfg lpar_wrap niP cnasP tmo).2
            = Except.error NetworkError.virtualInterfaceCreateException) := by
  constructor
  · constructor
    · simp [unplugVifsExecute, h, isCreate, isDelete]
    · simp [unplugVifsExecute, h]
  · intro hne
    obtain ⟨v, rest, hv⟩ : ∃ v rest, computeCrtVifs nm niP cnasP = v :: rest := by
      cases hc : computeCrtVifs nm niP cnasP with
      | nil => exact absurd hc hne
      | cons a l2 => exact ⟨a, l2, rfl⟩
    constructor
    · simp [plugVifsExecute, hv, h, isCreate, isDelete]
    · simp [plugVifsExecute, hv, h]

/-- Witness for `not_modifiable_no_mutation` at a concrete input. -/
theorem not_modifiable_no_mutation_witness :
    (unplugVifsExecute (fun s => s) (fun _ => true) ⟨false, "r"⟩
        [⟨"aa", "1", none⟩] [⟨"aa", "sw"⟩]).1.filter
      (fun e => isCreate e || isDelete e) = [] :=
  (not_modifiable_no_mutation (fun s => s) (fun _ => true) ⟨true, true, 300⟩
    ⟨false, "r"⟩ [⟨"aa", "1", none⟩] [⟨"aa", "1", none⟩]
    [⟨"aa", "sw"⟩] [] false rfl).1.1

/-- C5 counterexample: with the machine not modifiable and reason "boom",
the unplug operation raises `VirtualInterfaceUnplugException` with an empty
kwargs list — the machine-reported reason is not carried by the exception
(`raise VirtualInterfaceUnplugException()` passes no arguments; the reason
only goes to the error log). -/
theorem unplug_exception_payload_counterexample :
    (unplugVifsExecute (fun s => s) (fun _ => true) ⟨false, "boom"⟩
        [⟨"aa", "1", none⟩] []).2
      = Except.error (NetworkError.virtualInterfaceUnplugException [])
    ∧ raisedKwargs ((unplugVifsExecute (fun s => s) (fun _ => true) ⟨false, "boom"⟩
        [⟨"aa", "1", none⟩] []).2) = []
    ∧ ("reason", "boom")
        ∉ raisedKwargs ((unplugVifsExecute (fun s => s) (fun _ => true) ⟨false, "boom"⟩
            [⟨"aa", "1", none⟩] []).2)
    ∧ Effect.logErrorNotModifiable ("boom")
        ∈ (unplugVifsExecute (fun s => s) (fun _ => true) ⟨false, "boom"⟩
            [⟨"aa", "1", none⟩] []).1 := by
  decide

/-- C5 (amended): when the machine is not modifiable the unplug operation
fails immediately with a fatal `VirtualInterfaceUnplugException` raised with
no arguments (the machine-reported reason appears only in the error log,
not in the exception), and no partial work occurs: the whole trace is the
state check plus the log line — no CNA fetch, no deletion. -/
theorem unplug_not_modifiable (nm : String → String) (delOk : String → Bool)
    (lpar_wrap : LparWrap) (ni : List VifDict) (cnas : List CnaWrapper)
    (h : lpar_wrap.modifiable = false) :
    unplugVifsExecute nm delOk lpar_wrap ni cnas
      = ([Effect.checkModifiable, Effect.logErrorNotModifiable lpar_wrap.reason],
         Except.error (NetworkError.virtualInterfaceUnplugException [])) := by
  simp [unplugVifsExecute, h]

/-- Witness for `unplug_not_modifiable` at a concrete input. -/
theorem unplug_not_modifiable_witness :
    unplugVifsExecute (fun s => s) (fun _ => true) ⟨false, "boom"⟩
        [⟨"aa", "1", none⟩] [⟨"aa", "sw"⟩]
      = ([Effect.checkModifiable, Effect.logErrorNotModifiable ("boom")],
         Except.error (NetworkError.virtualInterfaceUnplugException [])) :=
  unplug_not_modifiable (fun s => s) (fun _ => true) ⟨false, "boom"⟩
    [⟨"aa", "1", none⟩] [⟨"aa", "sw"⟩] rfl

/-- With an empty CNA list the unplug walk only logs not-found warnings and
reports no error. -/
theorem unplugLoop_nil_cnas (nm : String → String) (delOk : String → Bool) :
    ∀ ni : List VifDict,
      unplugLoop nm delOk ni []
        = (ni.map (fun v => Effect.logWarnNotFound v.address), none)
  | [] => rfl
  | vif :: rest => by
    simp [unplugLoop, findMatch, unplugLoop_nil_cnas nm delOk rest]

/-- C6: a desired-absent interface with no MAC-matching live adapter
contributes only a warning log to the unplug walk — no deletion, no error —
and the walk continues unchanged with the remaining interfaces; in
particular with an empty live adapter list the whole operation performs
zero deletions, logs one warning per interface and returns the empty
list. -/
theorem unplug_missing_adapter :
    (∀ (nm : String → String) (delOk : String → Bool) (vif : VifDict)
        (rest : List VifDict) (cnas : List CnaWrapper),
      findMatch nm vif cnas = none →
        unplugLoop nm delOk (vif :: rest) cnas
          = (Effect.logWarnNotFound vif.address :: (unplugLoop nm delOk rest cnas).1,
             (unplugLoop nm delOk rest cnas).2))
    ∧ (∀ (nm : String → String) (delOk : String → Bool) (lpar_wrap : LparWrap)
        (ni : List VifDict),
      lpar_wrap.modifiable = true →
        unplugVifsExecute nm delOk lpar_wrap ni []
          = ([Effect.checkModifiable, Effect.fetchCnas]
              ++ ni.map (fun v => Effect.logWarnNotFound v.address),
             Except.ok [])) := by
  constructor
  · intro nm delOk vif rest cnas h
    simp [unplugLoop, h]
  · intro nm delOk lpar_wrap ni hm
    simp [unplugVifsExecute, hm, unplugLoop_nil_cnas nm delOk ni]

/-- Witness for `unplug_missing_adapter` at concrete inputs (the spec's
scenario: desired-to-remove one interface, live list empty). -/
theorem unplug_missing_adapter_witness :
    unplugLoop (fun s => s) (fun _ => true) [⟨"aa:bb", "1", none⟩] []
      = (Effect.logWarnNotFound ("aa:bb")
          :: (unplugLoop (fun s => s) (fun _ => true) [] []).1,
         (unplugLoop (fun s => s) (fun _ => true) [] []).2)
    ∧ unplugVifsExecute (fun s => s) (fun _ => true) ⟨true, "r"⟩
        [⟨"aa:bb", "1", none⟩] []
      = ([Effect.checkModifiable, Effect.fetchCnas]
          ++ [(⟨"aa:bb", "1", none⟩ : VifDict)].map
              (fun v => Effect.logWarnNotFound v.address),
         Except.ok []) :=
  ⟨unplug_missing_adapter.1 (fun s => s) (fun _ => true) ⟨"aa:bb", "1", none⟩ [] []
     (by decide),
   unplug_missing_adapter.2 (fun s => s) (fun _ => true) ⟨true, "r"⟩
     [⟨"aa:bb", "1", none⟩] rfl⟩

/-- C7 counterexample: the same address twice in the desired list with no
live match yields two `vm.crt_vif` creations — `crt_vifs` is not
de-duplicated by address. -/
theorem plug_duplicate_counterexample :
    ((plugVifsExecute (fun s => s) ⟨true, true, 300⟩ ⟨true, "r"⟩
        [⟨"aa", "1", some true⟩, ⟨"aa", "2", some true⟩] [] false).1.filter isCreate)
      = [Effect.createVif ("aa"), Effect.createVif ("aa")]
    ∧ ¬ (((plugVifsExecute (fun s => s) ⟨true, true, 300⟩ ⟨true, "r"⟩
        [⟨"aa", "1", some true⟩, ⟨"aa", "2", some true⟩] [] false).1.filter
          isCreate).length ≤ 1) := by
  decide

/-- C7 (amended): the plug operation issues exactly one `vm.crt_vif`
creation per `crt_vifs` element, in order — so a desired address that is
unmatched and occurs n times is created n times, not once. -/
theorem plug_one_creation_per_crt_vif (nm : String → String) (cfg : Config)
    (lpar_wrap : LparWrap) (ni : List VifDict) (cnas : List CnaWrapper) (tmo : Bool)
    (hmod : lpar_wrap.modifiable = true) (hne : computeCrtVifs nm ni cnas ≠ []) :
    (plugVifsExecute nm cfg lpar_wrap ni cnas tmo).1.filter isCreate
      = (computeCrtVifs nm ni cnas).map (fun v => Effect.createVif v.address) := by
  obtain ⟨v, rest, hv⟩ : ∃ v rest, computeCrtVifs nm ni cnas = v :: rest := by
    cases h : computeCrtVifs nm ni cnas with
    | nil => exact absurd h hne
    | cons a l2 => exact ⟨a, l2, rfl⟩
  have hmapfil : ∀ l : List VifDict,
      (l.map (fun w => Effect.createVif w.address)).filter isCreate
        = l.map (fun w => Effect.createVif w.address) := by
    intro l
    induction l with
    | nil => rfl
    | cons a t ih => simp [isCreate, ih]
  simp only [plugVifsExecute, hv, hmod]
  simp [List.filter_append, isCreate, hmapfil]

/-- Witness for `plug_one_creation_per_crt_vif` at a concrete input. -/
theorem plug_one_creation_per_crt_vif_witness :
    (plugVifsExecute (fun s => s) ⟨true, true, 300⟩ ⟨true, "r"⟩
        [⟨"aa", "1", some true⟩, ⟨"aa", "2", some true⟩] [] false).1.filter isCreate
      = (computeCrtVifs (fun s => s)
          [⟨"aa", "1", some true⟩, ⟨"aa", "2", some true⟩] []).map
          (fun v => Effect.createVif v.address) :=
  plug_one_creation_per_crt_vif (fun s => s) ⟨true, true, 300⟩ ⟨true, "r"⟩
    [⟨"aa", "1", some true⟩, ⟨"aa", "2", some true⟩] [] false rfl (by decide)

/-- C8: the management-VIF operation creates nothing and returns `None`
exactly when the host has no management virtual switch or some supplied CNA
is already bound to it; otherwise its trace is exactly one
`vm.crt_secure_rmc_vif` call and it returns the created adapter. -/
theorem mgmt_vif_skip_iff (vswitch_w : Option VSwitch) (vm_cnas : List CnaWrapper)
    (created : CnaWrapper) :
    (plugMgmtVifExecute vswitch_w vm_cnas created = ([], none)
      ↔ vswitch_w = none
        ∨ ∃ sw, vswitch_w = some sw ∧ ∃ cna ∈ vm_cnas, cna.vswitch_uri = sw.href)
    ∧ (∀ sw, vswitch_w = some sw →
        (∀ cna ∈ vm_cnas, cna.vswitch_uri ≠ sw.href) →
        plugMgmtVifExecute vswitch_w vm_cnas created
          = ([Effect.createMgmtVif], some created)) := by
  constructor
  · cases vswitch_w with
    | none => simp [plugMgmtVifExecute]
    | some sw =>
      cases h : vm_cnas.any (fun cna_w => cna_w.vswitch_uri == sw.href) with
      | true =>
        have hex : ∃ cna ∈ vm_cnas, cna.vswitch_uri = sw.href := by
          simpa using h
        simp only [plugMgmtVifExecute, h, if_true]
        constructor
        · intro _
          exact Or.inr ⟨sw, rfl, hex⟩
        · intro _
          trivial
      | false =>
        have hall : ∀ cna ∈ vm_cnas, cna.vswitch_uri ≠ sw.href := by
          intro cna hc
          have h2 := List.any_eq_false.mp h cna hc
          simpa using h2
        simp only [plugMgmtVifExecute, h, if_false]
        constructor
        · intro habs
          simp at habs
        · rintro (hnone | ⟨sw2, hsw2, cna, hmem, huri⟩)
          · simp at hnone
          · rw [Option.some.injEq] at hsw2
            subst hsw2
            exact absurd huri (hall cna hmem)
  · intro sw hsw hnone
    subst hsw
    have h : vm_cnas.any (fun cna_w => cna_w.vswitch_uri == sw.href) = false := by
      simp only [List.any_eq_false, beq_iff_eq]
      exact hnone
    simp [plugMgmtVifExecute, h]

/-- Witness for `mgmt_vif_skip_iff` at concrete inputs. -/
theorem mgmt_vif_skip_iff_witness :
    plugMgmtVifExecute (some ⟨"swM"⟩) [⟨"aa", "swM"⟩] ⟨"mm", "swM"⟩ = ([], none)
    ∧ plugMgmtVifExecute (some ⟨"swM"⟩) [⟨"aa", "other"⟩] ⟨"mm", "swM"⟩
      = ([Effect.createMgmtVif], some ⟨"mm", "swM"⟩) :=
  ⟨(mgmt_vif_skip_iff (some ⟨"swM"⟩) [⟨"aa", "swM"⟩] ⟨"mm", "swM"⟩).1.mpr
     (Or.inr ⟨⟨"swM"⟩, rfl, ⟨"aa", "swM"⟩, by decide, rfl⟩),
   (mgmt_vif_skip_iff (some ⟨"swM"⟩) [⟨"aa", "other"⟩] ⟨"mm", "swM"⟩).2
     ⟨"swM"⟩ rfl (by decide)⟩

/-- C9: with the fatal policy on, a registered wait set and a deadline
elapsing at scope exit, the plug operation fails with
`VirtualInterfaceCreateException` while its trace still holds one creation
per `crt_vifs` element — however many that is — and no deletion (no
rollback of completed creations). -/
theorem plug_timeout_fatal (nm : String → String) (cfg : Config)
    (lpar_wrap : LparWrap) (ni : List VifDict) (cnas : List CnaWrapper)
    (hmod : lpar_wrap.modifiable = true)
    (hne : computeCrtVifs nm ni cnas ≠ [])
    (hfatal : cfg.vif_plugging_is_fatal = true)
    (hev : getVifEvents cfg ni ≠ []) :
    (plugVifsExecute nm cfg lpar_wrap ni cnas true).2
        = Except.error NetworkError.virtualInterfaceCreateException
    ∧ (plugVifsExecute nm cfg lpar_wrap ni cnas true).1.filter isCreate
        = (computeCrtVifs nm ni cnas).map (fun v => Effect.createVif v.address)
    ∧ (plugVifsExecute nm cfg lpar_wrap ni cnas true).1.filter isDelete = [] := by
  obtain ⟨v, rest, hv⟩ : ∃ v rest, computeCrtVifs nm ni cnas = v :: rest := by
    cases h : computeCrtVifs nm ni cnas with
    | nil => exact absurd h hne
    | cons a l2 => exact ⟨a, l2, rfl⟩
  have hemp : (getVifEvents cfg ni).isEmpty = false := by
    cases h : getVifEvents cfg ni with
    | nil => exact absurd h hev
    | cons a l2 => rfl
  refine ⟨?_, ?_, ?_⟩
  · simp [plugVifsExecute, hv, hmod, hemp]
  · have hmapfil : ∀ l : List VifDict,
        (l.map (fun w => Effect.createVif w.address)).filter isCreate
          = l.map (fun w => Effect.createVif w.address) := by
      intro l
      induction l with
      | nil => rfl
      | cons a t ih => simp [isCreate, ih]
    simp only [plugVifsExecute, hv, hmod]
    simp [List.filter_append, isCreate, hmapfil]
  · have hmapdel : ∀ l : List VifDict,
        (l.map (fun w => Effect.createVif w.address)).filter isDelete = [] := by
      intro l
      induction l with
      | nil => rfl
      | cons a t ih => simp [isDelete, ih]
    simp only [plugVifsExecute, hv, hmod]
    simp [List.filter_append, isDelete, hmapdel]

/-- Witness for `plug_timeout_fatal` at a concrete input. -/
theorem plug_timeout_fatal_witness :
    (plugVifsExecute (fun s => s) ⟨true, true, 300⟩ ⟨true, "r"⟩
        [⟨"aa", "1", some false⟩] [] true).2
      = Except.error NetworkError.virtualInterfaceCreateException :=
  (plug_timeout_fatal (fun s => s) ⟨true, true, 300⟩ ⟨true, "r"⟩
    [⟨"aa", "1", some false⟩] [] rfl (by decide) rfl (by decide)).1

/-- C10: every registered wait entry originates from a desired interface
whose active flag is explicitly false; interfaces whose 'active' key is
absent default to active and generate no entry — under any configuration,
including neutron with the fatal policy and a nonzero timeout — so a list
whose interfaces all lack the flag yields an empty wait set. -/
theorem absent_active_defaults_to_active (cfg : Config) (ni : List VifDict) :
    (∀ e ∈ getVifEvents cfg ni,
      ∃ v ∈ ni, v.active = some false ∧ e = ("network-vif-plugged", v.id))
    ∧ ((∀ v ∈ ni, v.active = none) → getVifEvents cfg ni = []) := by
  constructor
  · intro e he
    unfold getVifEvents at he
    by_cases hc : (cfg.is_neutron && cfg.vif_plugging_is_fatal
        && decide (cfg.vif_plugging_timeout ≠ 0)) = true
    · rw [if_pos hc] at he
      obtain ⟨v, hvmem, hve⟩ := List.mem_map.mp he
      have hvfil := List.mem_filter.mp hvmem
      refine ⟨v, hvfil.1, ?_, hve.symm⟩
      have hact := hvfil.2
      cases hv : v.active with
      | none => rw [hv] at hact; simp at hact
      | some b =>
        rw [hv] at hact
        cases b with
        | false => rfl
        | true => simp at hact
    · rw [if_neg hc] at he
      exact absurd he (List.not_mem_nil e)
  · intro hall
    unfold getVifEvents
    by_cases hc : (cfg.is_neutron && cfg.vif_plugging_is_fatal
        && decide (cfg.vif_plugging_timeout ≠ 0)) = true
    · rw [if_pos hc]
      have hfil : ni.filter (fun vif => !(vif.active.getD true)) = [] := by
        rw [List.filter_eq_nil_iff]
        intro v hv
        rw [hall v hv]
        simp
      rw [hfil]
      rfl
    · rw [if_neg hc]

/-- Witness for `absent_active_defaults_to_active` at a concrete input:
neutron, fatal policy and timeout all on, one interface without the flag. -/
theorem absent_active_defaults_to_active_witness :
    getVifEvents ⟨true, true, 300⟩ [⟨"aa", "1", none⟩] = [] :=
  (absent_active_defaults_to_active ⟨true, true, 300⟩ [⟨"aa", "1", none⟩]).2
    (by decide)

end NovaPowerVM
